import Mathlib

/-!
# Rural School Attendance System — verification of the spec against the code

Shallow embedding of the face-recognition attendance system.

The repository ships two source files: `frontend/src/App.js` (the React client)
and `test_result.md` (a testing log).  The backend (`server.py`, referenced by
the testing log) is not part of the sources, so the enrollment / recognition /
ledger engine is modelled from the specification's words; each such definition
carries a doc comment starting with `Modelled from the spec:`.  Everything about
the client (`AttendanceMarking`, `markAttendance`, the fields it reads from the
mark response) is embedded directly from `App.js`.
-/

namespace RuralAttendance

/-! ## Frontend embedding — `src/frontend/src/App.js`

The `AttendanceMarking` component (App.js lines 971–1068) holds the state
`showCamera`, `result`, `loading` and a `date` fixed at mount by
`useState(new Date().toISOString().split('T')[0])` (line 975; note that no
setter for `date` is even destructured).  `markAttendance` (lines 977–1000)
posts `{class_id, image, date}` and handles success and failure. -/

/-- Two-digit zero padding, as produced by the fixed-width fields of
JavaScript's `Date.prototype.toISOString`. -/
def pad2 (n : Nat) : String :=
  if n < 10 then "0" ++ toString n else toString n

/-- Civil (proleptic Gregorian, UTC) date from a count of days since
1970-01-01, for nonnegative day counts: the calendar arithmetic behind
JavaScript's `Date.prototype.toISOString`.  Returns (year, month, day). -/
def civilFromDays (days : Nat) : Nat × Nat × Nat :=
  let z := days + 719468
  let era := z / 146097
  let doe := z % 146097
  let yoe := (doe - doe / 1460 + doe / 36524 - doe / 146096) / 365
  let doy := doe - (365 * yoe + yoe / 4 - yoe / 100)
  let mp := (5 * doy + 2) / 153
  let d := doy - (153 * mp + 2) / 5 + 1
  let m := if mp < 10 then mp + 3 else mp - 9
  let y := yoe + era * 400 + (if m ≤ 2 then 1 else 0)
  (y, m, d)

/-- Embedding of `new Date(ms).toISOString().split('T')[0]` (App.js line 975)
for a nonnegative timestamp `ms` in milliseconds since the epoch: the UTC
calendar date rendered as `YYYY-MM-DD`. -/
def jsISODate (ms : Nat) : String :=
  let (y, m, d) := civilFromDays (ms / 86400000)
  toString y ++ "-" ++ pad2 m ++ "-" ++ pad2 d

/-- The student object the client renders from a mark response
(App.js line 1052 reads `result.student.name` and `result.student.roll_number`). -/
structure MarkStudent where
  name : String
  roll_number : String
  deriving DecidableEq, Repr

/-- The mark response as consumed by `AttendanceMarking` (App.js lines
1040–1056): it reads `recognized`, `message`, `student`, `confidence` and
`already_marked`.  Optional fields are `Option`s. -/
structure MarkResult where
  recognized : Bool
  message : String
  student : Option MarkStudent
  confidence : Option ℚ
  already_marked : Option Bool
  deriving DecidableEq, Repr

/-- The body `markAttendance` posts to `/api/attendance/mark`
(App.js lines 982–986): `{ class_id, image, date }`. -/
structure MarkRequest where
  class_id : String
  image : String
  date : String
  deriving DecidableEq, Repr

/-- Outcome of the awaited `axios.post` inside `markAttendance`: success with
the response body, or failure carrying `error.response?.data?.detail`
(`none` when any link of the optional chain is absent). -/
inductive HttpOutcome where
  | success (data : MarkResult)
  | failure (detail : Option String)
  deriving DecidableEq, Repr

/-- Embedding of the JavaScript expression `detail || dflt` on an optional
string: `||` takes the default when `detail` is absent or falsy (the empty
string). -/
def jsOrElse (detail : Option String) (dflt : String) : String :=
  match detail with
  | some s => if s = "" then dflt else s
  | none => dflt

/-- State of the `AttendanceMarking` component (App.js lines 971–975):
`classId` prop, `showCamera`, `result`, `loading`, and the `date` string
fixed at mount. -/
structure AMState where
  classId : String
  showCamera : Bool
  result : Option MarkResult
  loading : Bool
  date : String
  deriving DecidableEq, Repr

/-- `AttendanceMarking` at mount (App.js lines 971–975): camera closed, no
result, not loading, `date` set to `new Date().toISOString().split('T')[0]`
at the mount instant `mountMs`. -/
def amInit (classId : String) (mountMs : Nat) : AMState :=
  { classId := classId
    showCamera := false
    result := none
    loading := false
    date := jsISODate mountMs }

/-- User-visible events of `AttendanceMarking`: opening and closing the
camera (App.js lines 1012, 1028), and a capture, which runs `markAttendance`
to completion with the given HTTP outcome (lines 977–1000). -/
inductive AMEvent where
  | startCamera
  | closeCamera
  | capture (image : String) (outcome : HttpOutcome)
  deriving DecidableEq, Repr

/-- One step of `AttendanceMarking`, returning the next state and the mark
request sent, if any.  `capture` embeds `markAttendance` (App.js lines
977–1000): post `{class_id, image, date}`; on success store the response and
close the camera; on failure store `{recognized: false, message:
error.response?.data?.detail || 'Failed to mark attendance'}`; on both paths
the `finally` clause clears `loading`.  The function is total: no exception
escapes the handler. -/
def amStep (st : AMState) (e : AMEvent) : AMState × Option MarkRequest :=
  match e with
  | .startCamera => ({ st with showCamera := true }, none)
  | .closeCamera => ({ st with showCamera := false }, none)
  | .capture img outcome =>
    let req : MarkRequest := { class_id := st.classId, image := img, date := st.date }
    match outcome with
    | .success data =>
      ({ st with result := some data, showCamera := false, loading := false }, some req)
    | .failure detail =>
      ({ st with
          result := some
            { recognized := false
              message := jsOrElse detail "Failed to mark attendance"
              student := none
              confidence := none
              already_marked := none }
          loading := false }, some req)

/-- Run `AttendanceMarking` over a list of events, collecting every mark
request it sends. -/
def amRun (st : AMState) : List AMEvent → AMState × List MarkRequest
  | [] => (st, [])
  | e :: es =>
    let (st', req?) := amStep st e
    let (stF, reqs) := amRun st' es
    (stF, req?.toList ++ reqs)

/-- Property keys the `AttendanceMarking` render reads from the mark response
(App.js lines 1040–1056): `result.recognized`, `result.message`,
`result.student`, `result.confidence`, `result.already_marked`. -/
def attendanceResultKeysRead : List String :=
  ["recognized", "message", "student", "confidence", "already_marked"]

/-- Property keys the `AttendanceMarking` render reads from `result.student`
(App.js line 1052): `name` and `roll_number`. -/
def attendanceStudentKeysRead : List String :=
  ["name", "roll_number"]

/-- Modelled from the spec: §6 gives the recognize response shape as
`{ recognized, message, student?, confidence?, alreadyMarked? }` — these are
the spec's field names for the wire object. -/
def specRecognizeResponseKeys : List String :=
  ["recognized", "message", "student", "confidence", "alreadyMarked"]

/-- Modelled from the spec: §6 gives the embedded student object as
`{id, name, rollNumber}` — the spec's field names. -/
def specStudentKeys : List String :=
  ["id", "name", "rollNumber"]

/-! ## Backend engine, modelled from the spec

`server.py` is not among the sources (only the testing log references it), so
the enrollment / recognition / ledger engine below is modelled from the
specification (§3–§4, §8). -/

/-- Modelled from the spec: §3 Student — identity, display name, roll number,
class reference (`server.py` is missing from the sources). -/
structure Student where
  id : String
  name : String
  rollNumber : String
  classId : String
  deriving DecidableEq, Repr

/-- Modelled from the spec: §3 FaceTemplate — a fixed-length numeric vector
used for similarity comparison (`server.py` is missing from the sources). -/
abbrev Template := List ℚ

/-- Modelled from the spec: §4.4 — the Matcher's distance between two
templates (here the L1 distance over the paired coordinates); the spec leaves
the concrete formula open (§9) and requires only that identical templates are
at distance 0. -/
def distance (a b : Template) : ℚ :=
  ((a.zip b).map (fun p => |p.1 - p.2|)).sum

/-- Modelled from the spec: §4.4 — similarity as normalized inverse distance
mapped into [0,1]; identical templates (distance 0) get similarity 1. -/
def similarity (a b : Template) : ℚ :=
  1 / (1 + distance a b)

/-- Modelled from the spec: §4.6 / §8 — the acceptance rule at the threshold
boundary is `≥` = accept. -/
def accepts (θ s : ℚ) : Prop := θ ≤ s

instance (θ s : ℚ) : Decidable (accepts θ s) := inferInstanceAs (Decidable (θ ≤ s))

/-- Modelled from the spec: §3 / §4.3 — the Template Store persists one
template per enrolled student, keyed by student identity (`server.py` is
missing from the sources). -/
abbrev TemplateStore := List (String × Template)

/-- Modelled from the spec: §4.6 Enroll policy — always overwrites any prior
template for the student with the newly extracted one; no merging. -/
def enroll (store : TemplateStore) (sid : String) (t : Template) : TemplateStore :=
  (sid, t) :: store.filter (fun e => !(e.1 == sid))

/-- The templates stored for a given student id. -/
def templatesOf (store : TemplateStore) (sid : String) : TemplateStore :=
  store.filter (fun e => e.1 == sid)

/-- The stored template of a student, if enrolled. -/
def lookupTemplate (store : TemplateStore) (sid : String) : Option Template :=
  (store.find? (fun e => e.1 == sid)).map Prod.snd

/-- Modelled from the spec: §3 AttendanceRecord — (student id, class id, date)
with presence flag and confidence score (`server.py` is missing from the
sources). -/
structure AttendanceRecord where
  studentId : String
  classId : String
  date : String
  present : Bool
  confidence : ℚ
  deriving DecidableEq, Repr

/-- Modelled from the spec: §4.5 — the Attendance Ledger's stored records. -/
abbrev Ledger := List AttendanceRecord

/-- The (student, class, date) key of a record. -/
def recordKey (r : AttendanceRecord) : String × String × String :=
  (r.studentId, r.classId, r.date)

/-- Whether a record has the given (student, class, date) key. -/
def keyMatch (sid cid d : String) (r : AttendanceRecord) : Bool :=
  r.studentId == sid && r.classId == cid && r.date == d

/-- The ledger's record for a (student, class, date) key, if any. -/
def findRecord (L : Ledger) (sid cid d : String) : Option AttendanceRecord :=
  L.find? (keyMatch sid cid d)

/-- How many records the ledger holds for a (student, class, date) key. -/
def countKey (L : Ledger) (sid cid d : String) : Nat :=
  (L.filter (keyMatch sid cid d)).length

/-- Outcome of the Ledger's `mark`: newly marked, or already marked — each
carrying the confidence reported to the caller. -/
inductive MarkOutcome where
  | newlyMarked (confidence : ℚ)
  | alreadyMarked (confidence : ℚ)
  deriving DecidableEq, Repr

/-- Modelled from the spec: §4.5 `mark(studentId, classId, date, confidence)`
— if no record exists for the key, create one with presence = true and the
given confidence and report "newly marked"; if a record exists, report
"already marked" with the existing record's stored confidence, performing no
mutation. -/
def mark (L : Ledger) (sid cid d : String) (conf : ℚ) : MarkOutcome × Ledger :=
  match findRecord L sid cid d with
  | some r => (.alreadyMarked r.confidence, L)
  | none =>
    (.newlyMarked conf,
      { studentId := sid, classId := cid, date := d, present := true, confidence := conf } :: L)

/-- The ledger states reachable by the core: starting empty, the only write
operation is `mark` (§4.5, §5). -/
inductive ReachableLedger : Ledger → Prop
  | nil : ReachableLedger []
  | step (L : Ledger) (sid cid d : String) (conf : ℚ) :
      ReachableLedger L → ReachableLedger (mark L sid cid d conf).2

/-- At most one record per (student, class, date): all keys in the ledger are
pairwise distinct. -/
def atMostOnePerKey (L : Ledger) : Prop :=
  L.Pairwise (fun a b => recordKey a ≠ recordKey b)

instance (L : Ledger) : Decidable (atMostOnePerKey L) :=
  inferInstanceAs (Decidable (L.Pairwise _))

/-- Modelled from the spec: §2 / §3 — the whole core's state: the students,
the Template Store and the Attendance Ledger. -/
structure SystemState where
  students : List Student
  store : TemplateStore
  ledger : Ledger
  deriving DecidableEq, Repr

/-- Modelled from the spec: §6 Roster lookup — the students belonging to the
requested class. -/
def roster (students : List Student) (cid : String) : List Student :=
  students.filter (fun s => s.classId == cid)

/-- Modelled from the spec: §3 RecognitionCandidateSet — the enrolled
students of the class named in the request, each paired with its stored
template; the only candidates eligible to match. -/
def candidates (st : SystemState) (cid : String) : List (Student × Template) :=
  (roster st.students cid).filterMap
    (fun s => (lookupTemplate st.store s.id).map (fun t => (s, t)))

/-- Modelled from the spec: §4.4 Matcher — score every candidate against the
query template. -/
def scored (q : Template) (cs : List (Student × Template)) : List (Student × ℚ) :=
  cs.map (fun c => (c.1, similarity q c.2))

/-- The best similarity attained in a scored candidate list, if any. -/
def topScore (l : List (Student × ℚ)) : Option ℚ :=
  l.foldr (fun p acc => match acc with | none => some p.2 | some m => some (max p.2 m)) none

/-- The scored candidates attaining the best similarity. -/
def topCandidates (l : List (Student × ℚ)) : List (Student × ℚ) :=
  match topScore l with
  | none => []
  | some m => l.filter (fun p => p.2 == m)

/-- Result of matching plus decision policy: no confident match, an ambiguous
tie at the top, or one accepted candidate with its confidence. -/
inductive MatchResult where
  | noMatch
  | ambiguous
  | matched (s : Student) (conf : ℚ)
  deriving DecidableEq, Repr

/-- Modelled from the spec: §4.4 / §4.6 — rank the candidates and apply the
decision policy: if two candidates share the numerically identical top score
the outcome is ambiguous (never an arbitrary pick); otherwise the unique top
candidate is accepted exactly when its similarity clears the threshold
(`≥` = accept). -/
def bestMatch (θ : ℚ) (q : Template) (cs : List (Student × Template)) : MatchResult :=
  match topCandidates (scored q cs) with
  | [] => .noMatch
  | [p] => if θ ≤ p.2 then .matched p.1 p.2 else .noMatch
  | _ :: _ :: _ => .ambiguous

/-- Modelled from the spec: §6 — the student object embedded in a recognize
response: `{id, name, rollNumber}`. -/
structure StudentInfo where
  id : String
  name : String
  rollNumber : String
  deriving DecidableEq, Repr

/-- Modelled from the spec: §6 — the recognize response shape
`{ recognized, message, student?, confidence?, alreadyMarked? }`. -/
structure RecognizeResponse where
  recognized : Bool
  message : String
  student : Option StudentInfo
  confidence : Option ℚ
  alreadyMarked : Option Bool
  deriving DecidableEq, Repr

/-- A "not recognized" response with the given message. -/
def notRecognized (msg : String) : RecognizeResponse :=
  { recognized := false, message := msg, student := none, confidence := none,
    alreadyMarked := none }

/-- Outcome of the capture pipeline stages that precede matching (§4.1–§4.3):
either no face was found in the frame, or a face was found and a query
template extracted from it. -/
inductive CaptureResult where
  | noFace
  | face (t : Template)
  deriving DecidableEq, Repr

/-- Modelled from the spec: §4.6 step 3 — an accepted candidate is written
through `Ledger.mark`: "recognized" when newly marked, "recognized, already
marked today" (with the ledger's original confidence and `alreadyMarked`
set) when a record for the day already existed. -/
def respondMatched (st : SystemState) (cid d : String) (s : Student) (conf : ℚ) :
    RecognizeResponse × SystemState :=
  match mark st.ledger s.id cid d conf with
  | (.newlyMarked c, L) =>
    ({ recognized := true, message := "recognized",
       student := some { id := s.id, name := s.name, rollNumber := s.rollNumber },
       confidence := some c, alreadyMarked := none },
     { st with ledger := L })
  | (.alreadyMarked c, L) =>
    ({ recognized := true, message := "recognized, already marked today",
       student := some { id := s.id, name := s.name, rollNumber := s.rollNumber },
       confidence := some c, alreadyMarked := some true },
     { st with ledger := L })

/-- Modelled from the spec: §4.6 Decision policy for Recognize — no face →
"not recognized"; no candidate clears the threshold (or the top is an
ambiguous tie, treated as no confident match) → "not recognized"; an accepted
candidate → `Ledger.mark` via `respondMatched`. -/
def recognize (θ : ℚ) (st : SystemState) (cid d : String) :
    CaptureResult → RecognizeResponse × SystemState
  | .noFace => (notRecognized "no face detected", st)
  | .face q =>
    match bestMatch θ q (candidates st cid) with
    | .noMatch => (notRecognized "no confident match", st)
    | .ambiguous => (notRecognized "no confident match", st)
    | .matched s conf => respondMatched st cid d s conf

/-- Input to a full recognition request, including the decode stage (§4.1):
a malformed image, a well-formed image with no detectable face, or a
well-formed image whose face yields a query template. -/
inductive PipelineInput where
  | badImage
  | noFace
  | face (t : Template)
  deriving DecidableEq, Repr

/-- Modelled from the spec: §4.6 / §7 — the full request: a decode failure is
a terminal hard failure (`Except.error`); "no face" and "no confident match"
are expected, non-error "not recognized" outcomes. -/
def recognizeRequest (θ : ℚ) (st : SystemState) (cid d : String) :
    PipelineInput → Except String (RecognizeResponse × SystemState)
  | .badImage => .error "decode error"
  | .noFace => .ok (recognize θ st cid d .noFace)
  | .face q => .ok (recognize θ st cid d (.face q))

/-! ## Concrete inputs used by the witnesses -/

/-- A sample ledger record used as concrete input. -/
def sampleRecord : AttendanceRecord :=
  { studentId := "stu2", classId := "clsB", date := "2025-10-02", present := true,
    confidence := 3/4 }

/-- A sample student. -/
def asha : Student :=
  { id := "s1", name := "Asha", rollNumber := "7", classId := "clsA" }

/-- A sample one-student system state. -/
def demoState : SystemState :=
  { students := [asha], store := [("s1", [0])], ledger := [] }

/-- A sample student for the tie scenario. -/
def stuA : Student :=
  { id := "a1", name := "Amar", rollNumber := "1", classId := "clsA" }

/-- A second sample student for the tie scenario. -/
def stuB : Student :=
  { id := "b1", name := "Bala", rollNumber := "2", classId := "clsA" }

/-- A system state where two enrolled students share an identical template. -/
def tieState : SystemState :=
  { students := [stuA, stuB], store := [("a1", [0]), ("b1", [0])], ledger := [] }

/-- A system state with no students at all. -/
def emptyClassState : SystemState :=
  { students := [], store := [], ledger := [] }

/-- A sample student for the re-marking scenario. -/
def bela : Student :=
  { id := "s2", name := "Bela", rollNumber := "8", classId := "clsB" }

/-- A sample one-student system state for the re-marking scenario. -/
def demo2State : SystemState :=
  { students := [bela], store := [("s2", [1])], ledger := [] }

/-! ## Ledger lemmas -/

theorem keyMatch_iff (sid cid d : String) (r : AttendanceRecord) :
    keyMatch sid cid d r = true ↔ recordKey r = (sid, cid, d) := by
  simp [keyMatch, recordKey, Prod.ext_iff, and_assoc]

theorem findRecord_eq_none_iff (L : Ledger) (sid cid d : String) :
    findRecord L sid cid d = none ↔ ∀ r ∈ L, keyMatch sid cid d r = false := by
  simp [findRecord, List.find?_eq_none]

theorem countKey_eq_zero_of_findRecord_none (L : Ledger) (sid cid d : String)
    (h : findRecord L sid cid d = none) : countKey L sid cid d = 0 := by
  have hall := (findRecord_eq_none_iff L sid cid d).mp h
  unfold countKey
  rw [List.length_eq_zero]
  exact List.filter_eq_nil_iff.mpr (fun r hr => by simp [hall r hr])

theorem reachable_atMostOnePerKey (L : Ledger) (hR : ReachableLedger L) :
    atMostOnePerKey L := by
  induction hR with
  | nil => exact List.Pairwise.nil
  | step L sid cid d conf _ ih =>
    unfold mark
    rcases hf : findRecord L sid cid d with _ | r
    · have hall := (findRecord_eq_none_iff L sid cid d).mp hf
      refine List.Pairwise.cons (fun r hr => ?_) ih
      intro hkey
      have : keyMatch sid cid d r = true := by
        rw [keyMatch_iff]
        exact hkey.symm
      simp [hall r hr] at this
    · exact ih

/-- C1 — marking twice with the same (studentId, classId, date) key, starting
from a ledger with no record for it, reports "newly marked" then "already
marked", leaves exactly one record for the key, and every reachable ledger
state holds at most one record per (student, class, date). -/
theorem ledger_mark_twice_unique (L L' : Ledger) (sid cid d : String) (c₁ c₂ : ℚ)
    (h : findRecord L sid cid d = none) (hR : ReachableLedger L') :
    (mark L sid cid d c₁).1 = MarkOutcome.newlyMarked c₁ ∧
    (mark (mark L sid cid d c₁).2 sid cid d c₂).1 = MarkOutcome.alreadyMarked c₁ ∧
    countKey (mark (mark L sid cid d c₁).2 sid cid d c₂).2 sid cid d = 1 ∧
    atMostOnePerKey L' := by
  have hmark1 : mark L sid cid d c₁ =
      (.newlyMarked c₁,
        { studentId := sid, classId := cid, date := d, present := true,
          confidence := c₁ } :: L) := by
    simp [mark, h]
  have hhead : keyMatch sid cid d
      { studentId := sid, classId := cid, date := d, present := true,
        confidence := c₁ } = true := by
    simp [keyMatch]
  have hfind2 : findRecord (mark L sid cid d c₁).2 sid cid d =
      some { studentId := sid, classId := cid, date := d, present := true,
             confidence := c₁ } := by
    rw [hmark1]
    exact List.find?_cons_of_pos _ hhead
  have hmark2 : (mark (mark L sid cid d c₁).2 sid cid d c₂) =
      (.alreadyMarked c₁, (mark L sid cid d c₁).2) := by
    generalize hE : (mark L sid cid d c₁).2 = L₁ at hfind2 ⊢
    simp [mark, hfind2]
  refine ⟨by rw [hmark1], by rw [hmark2], ?_, reachable_atMostOnePerKey L' hR⟩
  rw [hmark2, hmark1]
  have hz := countKey_eq_zero_of_findRecord_none L sid cid d h
  unfold countKey at hz ⊢
  simp only [List.filter_cons, hhead, if_pos, List.length_cons, hz]

/-- C1 witness. -/
theorem ledger_mark_twice_unique_witness :
    findRecord ([] : Ledger) "stu1" "clsA" "2025-10-01" = none ∧
    ((mark ([] : Ledger) "stu1" "clsA" "2025-10-01" (9/10)).1 =
        MarkOutcome.newlyMarked (9/10) ∧
      (mark (mark ([] : Ledger) "stu1" "clsA" "2025-10-01" (9/10)).2 "stu1" "clsA"
          "2025-10-01" (4/5)).1 = MarkOutcome.alreadyMarked (9/10) ∧
      countKey (mark (mark ([] : Ledger) "stu1" "clsA" "2025-10-01" (9/10)).2 "stu1"
          "clsA" "2025-10-01" (4/5)).2 "stu1" "clsA" "2025-10-01" = 1 ∧
      atMostOnePerKey ([] : Ledger)) :=
  ⟨rfl, ledger_mark_twice_unique [] [] "stu1" "clsA" "2025-10-01" (9/10) (4/5) rfl
    ReachableLedger.nil⟩

/-- C5 — when a record already exists for the key, `mark` leaves the ledger
entirely unchanged and reports the existing record's stored confidence, not
the new capture's confidence. -/
theorem mark_existing_no_mutation (L : Ledger) (sid cid d : String) (conf : ℚ)
    (r : AttendanceRecord) (h : findRecord L sid cid d = some r) :
    (mark L sid cid d conf).2 = L ∧
    (mark L sid cid d conf).1 = MarkOutcome.alreadyMarked r.confidence := by
  constructor <;> simp [mark, h]

/-- C5 witness. -/
theorem mark_existing_no_mutation_witness :
    findRecord [sampleRecord] "stu2" "clsB" "2025-10-02" = some sampleRecord ∧
    ((mark [sampleRecord] "stu2" "clsB" "2025-10-02" (1/2)).2 = [sampleRecord] ∧
      (mark [sampleRecord] "stu2" "clsB" "2025-10-02" (1/2)).1 =
        MarkOutcome.alreadyMarked sampleRecord.confidence) :=
  ⟨List.find?_cons_of_pos _ (by decide),
    mark_existing_no_mutation [sampleRecord] "stu2" "clsB" "2025-10-02" (1/2) sampleRecord
      (List.find?_cons_of_pos _ (by decide))⟩

/-! ## Matcher lemmas -/

theorem distance_self (T : Template) : distance T T = 0 := by
  induction T with
  | nil => rfl
  | cons x xs ih =>
    simp only [distance, List.zip_cons_cons, List.map_cons, List.sum_cons, sub_self,
      abs_zero, zero_add]
    simpa [distance] using ih

theorem similarity_self (T : Template) : similarity T T = 1 := by
  simp [similarity, distance_self]

theorem topCandidates_subset (l : List (Student × ℚ)) : topCandidates l ⊆ l := by
  unfold topCandidates
  rcases hts : topScore l with _ | m
  · intro x hx
    simp at hx
  · exact (List.filter_sublist l).subset

theorem bestMatch_mem (θ : ℚ) (q : Template) (cs : List (Student × Template))
    (s : Student) (conf : ℚ) (h : bestMatch θ q cs = .matched s conf) :
    ∃ t, (s, t) ∈ cs := by
  unfold bestMatch at h
  rcases htc : topCandidates (scored q cs) with _ | ⟨p, tl⟩
  · rw [htc] at h
    exact absurd h (by simp)
  · rcases tl with _ | ⟨p₂, tl₂⟩
    · rw [htc] at h
      have h' : (if θ ≤ p.2 then MatchResult.matched p.1 p.2 else MatchResult.noMatch) =
          MatchResult.matched s conf := h
      have hp : p ∈ scored q cs := topCandidates_subset _ (htc ▸ List.mem_singleton_self p)
      rcases List.mem_map.mp hp with ⟨c, hc, hcp⟩
      by_cases hθ : θ ≤ p.2
      · rw [if_pos hθ] at h'
        refine ⟨c.2, ?_⟩
        have hps : p.1 = s := by injection h'
        have hs : c.1 = s := by rw [← hps, ← hcp]
        rw [← hs]
        exact hc
      · rw [if_neg hθ] at h'
        exact absurd h' (by simp)
    · rw [htc] at h
      exact absurd h (by simp)

/-- C4 — a query template identical to a stored template is at distance 0,
scores similarity 1 (at or above any threshold ≤ 1) and is accepted with
confidence 1.0 by the matcher's decision; and a similarity exactly equal to
the threshold is classified as accepted (the boundary rule is ≥ = accept). -/
theorem threshold_boundary_accept (s : Student) (T : Template) (θ sim : ℚ)
    (hθ : θ ≤ 1) (hsim : sim = θ) :
    distance T T = 0 ∧ similarity T T = 1 ∧ accepts θ (similarity T T) ∧
    bestMatch θ T [(s, T)] = MatchResult.matched s 1 ∧ accepts θ sim := by
  refine ⟨distance_self T, similarity_self T, ?_, ?_, ?_⟩
  · rw [similarity_self]
    exact hθ
  · simp [bestMatch, topCandidates, topScore, scored, similarity_self, hθ]
  · rw [hsim]
    exact le_refl θ

/-- C4 witness. -/
theorem threshold_boundary_accept_witness :
    ((1 : ℚ)/2 ≤ 1 ∧ (1 : ℚ)/2 = 1/2) ∧
    (distance [0, 1] [0, 1] = 0 ∧ similarity [0, 1] [0, 1] = 1 ∧
      accepts (1/2) (similarity [0, 1] [0, 1]) ∧
      bestMatch (1/2) [0, 1]
        [({ id := "stu3", name := "Ravi", rollNumber := "12", classId := "clsC" }, [0, 1])] =
        MatchResult.matched
          { id := "stu3", name := "Ravi", rollNumber := "12", classId := "clsC" } 1 ∧
      accepts (1/2) (1/2)) :=
  ⟨⟨by norm_num, rfl⟩,
    threshold_boundary_accept
      { id := "stu3", name := "Ravi", rollNumber := "12", classId := "clsC" }
      [0, 1] (1/2) (1/2) (by norm_num) rfl⟩

/-- C7 — enrollment has overwrite semantics: after a second enrollment
exactly one template is stored for the student and it is the latest one, and
re-enrolling with the same capture is idempotent on the store. -/
theorem enroll_overwrites (store : TemplateStore) (sid : String) (t₁ t₂ : Template) :
    templatesOf (enroll (enroll store sid t₁) sid t₂) sid = [(sid, t₂)] ∧
    lookupTemplate (enroll (enroll store sid t₁) sid t₂) sid = some t₂ ∧
    enroll (enroll store sid t₂) sid t₂ = enroll store sid t₂ := by
  refine ⟨?_, ?_, ?_⟩
  · unfold templatesOf enroll
    simp only [List.filter_cons]
    simp [List.filter_filter]
  · unfold lookupTemplate enroll
    rw [List.find?_cons_of_pos _ (by simp)]
    rfl
  · unfold enroll
    simp only [List.filter_cons]
    simp [List.filter_filter]

/-! ## Orchestrator lemmas -/

theorem candidates_mem_class (st : SystemState) (cid : String) (s : Student)
    (t : Template) (h : (s, t) ∈ candidates st cid) :
    s ∈ st.students ∧ s.classId = cid := by
  unfold candidates at h
  rcases List.mem_filterMap.mp h with ⟨s', hs', hmap⟩
  rcases hopt : lookupTemplate st.store s'.id with _ | t'
  · rw [hopt] at hmap
    simp at hmap
  · rw [hopt] at hmap
    simp only [Option.map_some', Option.some.injEq, Prod.mk.injEq] at hmap
    obtain ⟨hs, _⟩ := hmap
    subst hs
    have hf := List.mem_filter.mp hs'
    exact ⟨hf.1, by simpa using hf.2⟩

/-- C3 — a recognition request scoped to a class only ever returns a student
of that class: whenever the response carries a student, that student is a
member of the system's student list whose class is the requested one. -/
theorem candidate_isolation (θ : ℚ) (q : Template) (st : SystemState) (cid d : String)
    (info : StudentInfo)
    (h : (recognize θ st cid d (.face q)).1.student = some info) :
    ∃ s, s ∈ st.students ∧ s.classId = cid ∧ s.id = info.id ∧ s.name = info.name ∧
      s.rollNumber = info.rollNumber := by
  simp only [recognize] at h
  rcases hbm : bestMatch θ q (candidates st cid) with _ | _ | ⟨s, conf⟩ <;> rw [hbm] at h
  · simp [notRecognized] at h
  · simp [notRecognized] at h
  · obtain ⟨t, hmem⟩ := bestMatch_mem θ q _ s conf hbm
    obtain ⟨hstu, hcls⟩ := candidates_mem_class st cid s t hmem
    simp only [respondMatched] at h
    rcases hmk : mark st.ledger s.id cid d conf with ⟨o, L⟩
    rw [hmk] at h
    cases o with
    | newlyMarked c =>
      have h' : some ({ id := s.id, name := s.name, rollNumber := s.rollNumber } :
          StudentInfo) = some info := h
      have he := Option.some.inj h'
      exact ⟨s, hstu, hcls, by rw [← he], by rw [← he], by rw [← he]⟩
    | alreadyMarked c =>
      have h' : some ({ id := s.id, name := s.name, rollNumber := s.rollNumber } :
          StudentInfo) = some info := h
      have he := Option.some.inj h'
      exact ⟨s, hstu, hcls, by rw [← he], by rw [← he], by rw [← he]⟩

/-- C3 witness. -/
theorem candidate_isolation_witness :
    (recognize 1 demoState "clsA" "2025-10-03" (.face [0])).1.student =
      some { id := "s1", name := "Asha", rollNumber := "7" } ∧
    (∃ s, s ∈ demoState.students ∧ s.classId = "clsA" ∧ s.id = "s1" ∧ s.name = "Asha" ∧
      s.rollNumber = "7") := by
  have h : (recognize 1 demoState "clsA" "2025-10-03" (.face [0])).1.student =
      some { id := "s1", name := "Asha", rollNumber := "7" } := by
    simp [recognize, demoState, asha, candidates, roster, lookupTemplate, scored,
      bestMatch, topCandidates, topScore, similarity_self, respondMatched, mark,
      findRecord, keyMatch]
  exact ⟨h, candidate_isolation 1 [0] demoState "clsA" "2025-10-03"
    { id := "s1", name := "Asha", rollNumber := "7" } h⟩

/-- C6 — when two distinct candidates attain the numerically identical top
similarity score, the match is reported as ambiguous and the Orchestrator
treats it as "no confident match": it never picks one of the tied candidates,
and the system state is untouched. -/
theorem tie_reported_ambiguous (θ : ℚ) (q : Template) (st : SystemState) (cid d : String)
    (s₁ s₂ : Student) (t₁ t₂ : Template)
    (h₁ : (s₁, t₁) ∈ candidates st cid) (h₂ : (s₂, t₂) ∈ candidates st cid)
    (hne : s₁ ≠ s₂)
    (htop : topScore (scored q (candidates st cid)) = some (similarity q t₁))
    (heq : similarity q t₂ = similarity q t₁) :
    bestMatch θ q (candidates st cid) = MatchResult.ambiguous ∧
    (recognize θ st cid d (.face q)).1 = notRecognized "no confident match" ∧
    (recognize θ st cid d (.face q)).2 = st := by
  have hm₁ : (s₁, similarity q t₁) ∈ topCandidates (scored q (candidates st cid)) := by
    unfold topCandidates
    rw [htop]
    exact List.mem_filter.mpr ⟨List.mem_map.mpr ⟨(s₁, t₁), h₁, rfl⟩, by simp⟩
  have hm₂ : (s₂, similarity q t₂) ∈ topCandidates (scored q (candidates st cid)) := by
    unfold topCandidates
    rw [htop]
    exact List.mem_filter.mpr ⟨List.mem_map.mpr ⟨(s₂, t₂), h₂, rfl⟩, by simp [heq]⟩
  have hamb : bestMatch θ q (candidates st cid) = MatchResult.ambiguous := by
    unfold bestMatch
    rcases hshape : topCandidates (scored q (candidates st cid)) with _ | ⟨p, _ | ⟨p₂, tl⟩⟩
    · rw [hshape] at hm₁
      simp at hm₁
    · rw [hshape] at hm₁ hm₂
      have e₁ := List.mem_singleton.mp hm₁
      have e₂ := List.mem_singleton.mp hm₂
      exact absurd ((congrArg Prod.fst e₁).trans (congrArg Prod.fst e₂).symm) hne
    · rfl
  refine ⟨hamb, ?_, ?_⟩ <;> simp [recognize, hamb]

/-- C6 witness. -/
theorem tie_reported_ambiguous_witness :
    (stuA, ([0] : Template)) ∈ candidates tieState "clsA" ∧
    (stuB, ([0] : Template)) ∈ candidates tieState "clsA" ∧
    stuA ≠ stuB ∧
    (bestMatch (1/2) [0] (candidates tieState "clsA") = MatchResult.ambiguous ∧
      (recognize (1/2) tieState "clsA" "2025-10-04" (.face [0])).1 =
        notRecognized "no confident match" ∧
      (recognize (1/2) tieState "clsA" "2025-10-04" (.face [0])).2 = tieState) := by
  have hc : candidates tieState "clsA" = [(stuA, [0]), (stuB, [0])] := by decide
  have h₁ : (stuA, ([0] : Template)) ∈ candidates tieState "clsA" := by
    rw [hc]
    simp
  have h₂ : (stuB, ([0] : Template)) ∈ candidates tieState "clsA" := by
    rw [hc]
    simp
  have htop : topScore (scored [0] (candidates tieState "clsA")) =
      some (similarity [0] [0]) := by
    rw [hc]
    simp [topScore, scored, max_self]
  exact ⟨h₁, h₂, by decide,
    tie_reported_ambiguous (1/2) [0] tieState "clsA" "2025-10-04" stuA stuB [0] [0]
      h₁ h₂ (by decide) htop rfl⟩

/-- C8 — a recognition request against a class with an empty candidate set
completes normally with a "not recognized" response and never raises an
error; likewise a frame with no detectable face. -/
theorem empty_candidates_not_recognized (θ : ℚ) (st : SystemState) (cid d : String)
    (q : Template) (h : candidates st cid = []) :
    recognizeRequest θ st cid d (.face q) =
      Except.ok (notRecognized "no confident match", st) ∧
    recognizeRequest θ st cid d .noFace =
      Except.ok (notRecognized "no face detected", st) := by
  constructor
  · simp [recognizeRequest, recognize, h, bestMatch, topCandidates, topScore, scored]
  · simp [recognizeRequest, recognize]

/-- C8 witness. -/
theorem empty_candidates_not_recognized_witness :
    candidates emptyClassState "clsZ" = [] ∧
    (recognizeRequest (3/4) emptyClassState "clsZ" "2025-10-05" (.face [0]) =
        Except.ok (notRecognized "no confident match", emptyClassState) ∧
      recognizeRequest (3/4) emptyClassState "clsZ" "2025-10-05" .noFace =
        Except.ok (notRecognized "no face detected", emptyClassState)) :=
  ⟨rfl, empty_candidates_not_recognized (3/4) emptyClassState "clsZ" "2025-10-05" [0] rfl⟩

/-! ## Response shape (C2) -/

/-- C2 counterexample — the spec's recognize response shape names the
optional fields `alreadyMarked` and the student's `rollNumber`, but the
`AttendanceMarking` consumer (App.js lines 1052, 1054) reads the snake_case
keys `already_marked` and `roll_number` instead; the camelCase keys are never
read by the frontend. -/
theorem response_field_names_counterexample :
    "alreadyMarked" ∈ specRecognizeResponseKeys ∧
    "alreadyMarked" ∉ attendanceResultKeysRead ∧
    "already_marked" ∈ attendanceResultKeysRead ∧
    "rollNumber" ∈ specStudentKeys ∧
    "rollNumber" ∉ attendanceStudentKeysRead ∧
    "roll_number" ∈ attendanceStudentKeysRead := by decide

/-- C2 (amended) — a second identical successful recognition on the same day
yields a recognized response whose duplicate-marking flag is true, carrying
the student's identity (with the roll number) and the stored confidence 1;
the frontend reads these response fields under the snake_case keys
`recognized`, `message`, `student`, `confidence`, `already_marked` and the
student keys `name`, `roll_number`. -/
theorem recognize_second_already_marked (θ : ℚ) (st : SystemState) (cid d : String)
    (s : Student) (t : Template) (hθ : θ ≤ 1)
    (hcand : candidates st cid = [(s, t)])
    (hnone : findRecord st.ledger s.id cid d = none) :
    (recognize θ st cid d (.face t)).1.recognized = true ∧
    (recognize θ (recognize θ st cid d (.face t)).2 cid d (.face t)).1 =
      { recognized := true, message := "recognized, already marked today",
        student := some { id := s.id, name := s.name, rollNumber := s.rollNumber },
        confidence := some 1, alreadyMarked := some true } ∧
    attendanceResultKeysRead =
      ["recognized", "message", "student", "confidence", "already_marked"] ∧
    attendanceStudentKeysRead = ["name", "roll_number"] := by
  have hbm : bestMatch θ t (candidates st cid) = MatchResult.matched s 1 := by
    rw [hcand]
    simp [bestMatch, scored, topScore, topCandidates, similarity_self, hθ]
  have hmark1 : mark st.ledger s.id cid d 1 =
      (.newlyMarked 1,
        { studentId := s.id, classId := cid, date := d, present := true,
          confidence := 1 } :: st.ledger) := by
    simp [mark, hnone]
  have hr1 : recognize θ st cid d (.face t) =
      ({ recognized := true, message := "recognized",
         student := some { id := s.id, name := s.name, rollNumber := s.rollNumber },
         confidence := some 1, alreadyMarked := none },
       { st with ledger :=
          { studentId := s.id, classId := cid, date := d, present := true,
            confidence := 1 } :: st.ledger }) := by
    simp [recognize, hbm, respondMatched, hmark1]
  have hcand' : candidates
      { st with ledger :=
        { studentId := s.id, classId := cid, date := d, present := true,
          confidence := 1 } :: st.ledger } cid = [(s, t)] := hcand
  have hbm' : bestMatch θ t (candidates
      { st with ledger :=
        { studentId := s.id, classId := cid, date := d, present := true,
          confidence := 1 } :: st.ledger } cid) = MatchResult.matched s 1 := by
    rw [hcand']
    simp [bestMatch, scored, topScore, topCandidates, similarity_self, hθ]
  have hfind2 : findRecord
      ({ studentId := s.id, classId := cid, date := d, present := true,
         confidence := 1 } :: st.ledger) s.id cid d =
      some { studentId := s.id, classId := cid, date := d, present := true,
             confidence := 1 } :=
    List.find?_cons_of_pos _ (by simp [keyMatch])
  have hmark2 : mark
      ({ studentId := s.id, classId := cid, date := d, present := true,
         confidence := 1 } :: st.ledger) s.id cid d 1 =
      (.alreadyMarked 1,
        { studentId := s.id, classId := cid, date := d, present := true,
          confidence := 1 } :: st.ledger) := by
    simp [mark, hfind2]
  refine ⟨by rw [hr1], ?_, rfl, rfl⟩
  rw [hr1]
  simp [recognize, hbm', respondMatched, hmark2]

/-- C2 witness. -/
theorem recognize_second_already_marked_witness :
    ((1 : ℚ) ≤ 1 ∧ candidates demo2State "clsB" = [(bela, [1])] ∧
      findRecord demo2State.ledger "s2" "clsB" "2025-10-06" = none) ∧
    ((recognize 1 demo2State "clsB" "2025-10-06" (.face [1])).1.recognized = true ∧
      (recognize 1 (recognize 1 demo2State "clsB" "2025-10-06" (.face [1])).2 "clsB"
          "2025-10-06" (.face [1])).1 =
        { recognized := true, message := "recognized, already marked today",
          student := some { id := "s2", name := "Bela", rollNumber := "8" },
          confidence := some 1, alreadyMarked := some true } ∧
      attendanceResultKeysRead =
        ["recognized", "message", "student", "confidence", "already_marked"] ∧
      attendanceStudentKeysRead = ["name", "roll_number"]) := by
  have hcand : candidates demo2State "clsB" = [(bela, [1])] := by decide
  exact ⟨⟨le_refl 1, hcand, rfl⟩,
    recognize_second_already_marked 1 demo2State "clsB" "2025-10-06" bela [1]
      (le_refl 1) hcand rfl⟩

/-! ## Frontend theorems (C9, C10) -/

theorem amRun_requests (events : List AMEvent) (st : AMState) (req : MarkRequest)
    (h : req ∈ (amRun st events).2) :
    req.date = st.date ∧ req.class_id = st.classId := by
  induction events generalizing st with
  | nil => simp [amRun] at h
  | cons e es ih =>
    rcases e with _ | _ | ⟨img, outcome⟩
    · simp only [amRun, amStep, Option.toList_none, List.nil_append] at h
      exact ih { st with showCamera := true } h
    · simp only [amRun, amStep, Option.toList_none, List.nil_append] at h
      exact ih { st with showCamera := false } h
    · rcases outcome with data | detail
      · simp only [amRun, amStep, Option.toList_some, List.singleton_append,
          List.mem_cons] at h
        rcases h with h | h
        · rw [h]
          exact ⟨rfl, rfl⟩
        · exact ih { st with result := some data, showCamera := false, loading := false } h
      · simp only [amRun, amStep, Option.toList_some, List.singleton_append,
          List.mem_cons] at h
        rcases h with h | h
        · rw [h]
          exact ⟨rfl, rfl⟩
        · exact ih { st with
            result := some
              { recognized := false
                message := jsOrElse detail "Failed to mark attendance"
                student := none
                confidence := none
                already_marked := none }
            loading := false } h

/-- C9 — every attendance-mark request `AttendanceMarking` sends, over any
sequence of user events, carries as its `date` the UTC calendar date computed
at component mount (`new Date().toISOString().split('T')[0]`), and as its
`class_id` the component's class; the client never submits a mark request
naming any other date. -/
theorem mark_request_date_fixed_at_mount (classId : String) (mountMs : Nat)
    (events : List AMEvent) (req : MarkRequest)
    (h : req ∈ (amRun (amInit classId mountMs) events).2) :
    req.date = jsISODate mountMs ∧ req.class_id = classId :=
  amRun_requests events (amInit classId mountMs) req h

/-- C9 witness. -/
theorem mark_request_date_fixed_at_mount_witness :
    ({ class_id := "c1", image := "img", date := "1970-01-01" } : MarkRequest) ∈
      (amRun (amInit "c1" 0) [AMEvent.capture "img" (HttpOutcome.failure none)]).2 ∧
    (({ class_id := "c1", image := "img", date := "1970-01-01" } : MarkRequest).date =
        jsISODate 0 ∧
      ({ class_id := "c1", image := "img",
          date := "1970-01-01" } : MarkRequest).class_id = "c1") :=
  ⟨by decide, mark_request_date_fixed_at_mount "c1" 0
    [AMEvent.capture "img" (HttpOutcome.failure none)]
    { class_id := "c1", image := "img", date := "1970-01-01" } (by decide)⟩

/-- C10 counterexample — when the server's error `detail` is present but is
the empty string, the displayed message is the fixed fallback `'Failed to
mark attendance'`, not the detail: JavaScript's `||` discards a present but
falsy detail, contradicting the claim that the message is the server's error
detail whenever present. -/
theorem markAttendance_empty_detail_counterexample :
    (amStep (amInit "c1" 0) (.capture "img" (.failure (some "")))).1.result.map
        (fun r => r.message) ≠ some "" ∧
    (amStep (amInit "c1" 0) (.capture "img" (.failure (some "")))).1.result.map
        (fun r => r.message) = some "Failed to mark attendance" := by
  constructor <;> decide

/-- C10 (amended) — on every failure of the mark HTTP call the handler
terminates normally (the step function is total) with a stored result whose
`recognized` is false and whose `message` is the server's error detail when
present and non-empty, and the fixed string `'Failed to mark attendance'`
when the detail is absent or empty; `loading` is reset to false on the
failure path and on the success path alike. -/
theorem markAttendance_failure_handling (st : AMState) (img : String)
    (detail : Option String) (dtl : String) (data : MarkResult) :
    (amStep st (.capture img (.failure detail))).1.loading = false ∧
    (amStep st (.capture img (.failure detail))).1.result =
      some { recognized := false,
             message := jsOrElse detail "Failed to mark attendance",
             student := none, confidence := none, already_marked := none } ∧
    jsOrElse (some dtl) "Failed to mark attendance" =
      (if dtl = "" then "Failed to mark attendance" else dtl) ∧
    jsOrElse none "Failed to mark attendance" = "Failed to mark attendance" ∧
    (amStep st (.capture img (.success data))).1.loading = false :=
  ⟨rfl, rfl, rfl, rfl, rfl⟩

end RuralAttendance
